import Mathlib

/-!
Shallow embedding of `src/invoice_generator.py` (a command-line invoice
generator) and verification of its specification.

Modelling conventions:
* The JSON configuration file `config.json` is modelled as a record of four
  optional fields (`ConfigFile`); the file system holds `Option ConfigFile`
  (`none` = file absent).  Unknown extra JSON keys are outside the data
  contract and are not modelled.
* Python floats (item prices) are modelled as exact rationals `ℚ`; every
  concrete value appearing in the claims (10.0, 5.5, 25.5) is exactly
  representable in binary floating point, so the rational model agrees with
  the float computation on those inputs.
* Python `int(...)` / `float(...)` string conversions are modelled by
  `pyParseInt` / `pyParseFloat` returning `Option`; `none` models the
  `ValueError` that terminates the program.  (Digit-group underscores and
  the `inf`/`nan` float spellings are edge spellings not modelled.)
* Python truthiness of strings (`a or b`) is modelled by `pyOr`:
  `None` and `""` are falsy.
* `input()` prompts are modelled by passing the user's answers explicitly:
  one string per scalar prompt and a list of strings for the item loop.
* The interactive cycle `generate_invoice` returns a `CycleOutcome`: the
  resulting generator state, an optional rendered PDF (`none` when no PDF
  file is written), and a termination status (`parseCrash` models the
  uncaught ValueError killing the process, `blockedForInput` models the
  program waiting on `input()` when the supplied script is exhausted).
* The field `invoice_prefix` of the Python code is named `invPfx` here.
-/

/-- The persisted JSON configuration object: four optional top-level keys
(`company_name`, `company_address`, `invoice_prefix` = `invPfx`,
`last_invoice_number`). -/
structure ConfigFile where
  company_name : Option String
  company_address : Option String
  invPfx : Option String
  last_invoice_number : Option Nat
deriving DecidableEq, Repr

/-- `load_config()`: returns the parsed file when it exists, else the empty
mapping (all fields absent). -/
def load_config (fs : Option ConfigFile) : ConfigFile :=
  fs.getD ⟨none, none, none, none⟩

/-- `save_config(config)`: overwrites the configuration file with the given
object; the resulting file-system state. -/
def save_config (c : ConfigFile) : Option ConfigFile :=
  some c

/-- Python `str.lower()` (ASCII case folding, as used on the inputs of this
program). -/
def pyLower (s : String) : String :=
  ⟨s.toList.map Char.toLower⟩

/-- Python `str.strip()`: removes whitespace from both ends. -/
def pyStrip (s : String) : String :=
  ⟨((s.toList.dropWhile Char.isWhitespace).reverse.dropWhile
      Char.isWhitespace).reverse⟩

/-- Python string truthiness used in `self.company_name or ...`:
`None` and the empty string are falsy. -/
def pyOr (a : Option String) (b : String) : String :=
  match a with
  | some s => if s = "" then b else s
  | none => b

/-- In-memory state of an `InvoiceGenerator` instance together with the
configuration file on disk (`file`). -/
structure GenState where
  company_name : String
  company_address : String
  invPfx : String
  last_invoice_number : Nat
  file : Option ConfigFile
deriving DecidableEq, Repr

/-- `InvoiceGenerator.__init__`: resolves each company field as
`argument or config.get(key, default)` and loads the counter. -/
def initGenerator (nameArg addrArg pfxArg : Option String)
    (fs : Option ConfigFile) : GenState :=
  let config := load_config fs
  { company_name := pyOr nameArg (config.company_name.getD "Default Company")
    company_address := pyOr addrArg (config.company_address.getD "Default Address")
    invPfx := pyOr pfxArg (config.invPfx.getD "INV")
    last_invoice_number := config.last_invoice_number.getD 0
    file := fs }

/-- Python `f"{n:04d}"` for a natural number: decimal digits zero-padded on
the left to at least 4 characters. -/
def pad4 (n : Nat) : String :=
  let s := toString n
  String.mk (List.replicate (4 - s.length) '0') ++ s

/-- `InvoiceGenerator.get_next_invoice_number`: increments the in-memory
counter, immediately persists the full four-field configuration, and returns
the formatted identifier. -/
def get_next_invoice_number (st : GenState) : String × GenState :=
  let n := st.last_invoice_number + 1
  let saved : ConfigFile :=
    ⟨some st.company_name, some st.company_address, some st.invPfx, some n⟩
  ( st.invPfx ++ pad4 n,
    { st with last_invoice_number := n, file := save_config saved } )

/-- One collected line item (`{"desc": ..., "qty": ..., "price": ...}`). -/
structure Item where
  desc : String
  qty : Int
  price : ℚ
deriving DecidableEq, Repr

/-- Value of a list of decimal digit characters. -/
def digitsToNat (cs : List Char) : Nat :=
  cs.foldl (fun a c => a * 10 + (c.toNat - 48)) 0

/-- All characters are decimal digits. -/
def allDigits (cs : List Char) : Bool :=
  cs.all Char.isDigit

/-- Python `int(s)` on a string: strips surrounding whitespace, then an
optional sign followed by a nonempty digit run; anything else raises
(`none`). -/
def pyParseInt (s : String) : Option Int :=
  let cs := (pyStrip s).toList
  match cs with
  | '+' :: rest =>
      if !rest.isEmpty && allDigits rest then some (digitsToNat rest : Int) else none
  | '-' :: rest =>
      if !rest.isEmpty && allDigits rest then some (-(digitsToNat rest : Int)) else none
  | _ =>
      if !cs.isEmpty && allDigits cs then some (digitsToNat cs : Int) else none

/-- Optionally signed nonempty digit run (the exponent part of a float
literal). -/
def parseExpPart (cs : List Char) : Option Int :=
  match cs with
  | '+' :: r =>
      if !r.isEmpty && allDigits r then some (digitsToNat r : Int) else none
  | '-' :: r =>
      if !r.isEmpty && allDigits r then some (-(digitsToNat r : Int)) else none
  | _ =>
      if !cs.isEmpty && allDigits cs then some (digitsToNat cs : Int) else none

/-- Unsigned float literal `digits [. digits] [(e|E) [sign] digits]` (at
least one digit in the mantissa), as an exact rational. -/
def pyParseFloatCore (cs : List Char) : Option ℚ :=
  let p1 := cs.span Char.isDigit
  let ip := p1.1
  let p2 : List Char × List Char :=
    match p1.2 with
    | '.' :: t => t.span Char.isDigit
    | _ => ([], p1.2)
  let fp := p2.1
  if ip.isEmpty && fp.isEmpty then none
  else
    let mant : ℚ := (digitsToNat (ip ++ fp) : ℚ) / (10 : ℚ) ^ fp.length
    match p2.2 with
    | [] => some mant
    | 'e' :: t => (parseExpPart t).map fun e => mant * (10 : ℚ) ^ e
    | 'E' :: t => (parseExpPart t).map fun e => mant * (10 : ℚ) ^ e
    | _ => none

/-- Python `float(s)` on a string: strips surrounding whitespace, optional
sign, then a decimal literal; anything else raises (`none`). -/
def pyParseFloat (s : String) : Option ℚ :=
  let cs := (pyStrip s).toList
  match cs with
  | '+' :: r => pyParseFloatCore r
  | '-' :: r => (pyParseFloatCore r).map Neg.neg
  | _ => pyParseFloatCore cs

/-- Outcome of the item-collection loop. -/
inductive CollectResult where
  /-- The user typed (case-insensitively) `done`; the collected items, in
  entry order. -/
  | done (items : List Item)
  /-- `int(...)` or `float(...)` raised on this input; the process dies. -/
  | crash (badInput : String)
  /-- The supplied input script ran out; the real program would block on
  `input()`. -/
  | blocked
deriving DecidableEq, Repr

/-- The `while True` item-collection loop of `generate_invoice`, driven by
the list of answers to its prompts (description, quantity, price, ...). -/
def collectItems : List String → CollectResult
  | [] => .blocked
  | d :: rest =>
    if pyLower d = "done" then .done []
    else
      match rest with
      | [] => .blocked
      | q :: rest2 =>
        match pyParseInt q with
        | none => .crash q
        | some n =>
          match rest2 with
          | [] => .blocked
          | p :: rest3 =>
            match pyParseFloat p with
            | none => .crash p
            | some v =>
              match collectItems rest3 with
              | .done items => .done (⟨d, n, v⟩ :: items)
              | r => r
termination_by structural x => x

/-- The running total computed in the summary loop:
`total = 0; for item: total += item.qty * item.price`. -/
def computeTotal (items : List Item) : ℚ :=
  items.foldl (fun t it => t + (it.qty : ℚ) * it.price) 0

/-- Abstraction of the rendered PDF: the deterministic file name, the header
strings drawn near the top of the page, and the per-item lines with their
vertical positions (starting at y = 690, stepping down 15 per item), then
the total line 20 units below the last item line. -/
structure Pdf where
  filename : String
  headerCompanyName : String
  headerCompanyAddress : String
  headerInvoiceNumber : String
  headerDate : String
  headerCustomerName : String
  headerCustomerAddress : String
  itemLines : List (Int × Item)
  totalLine : Int × ℚ
deriving DecidableEq, Repr

/-- Item drawing positions: y starts at the given coordinate and decreases
by 15 after each item. -/
def itemLinesFrom : List Item → Int → List (Int × Item)
  | [], _ => []
  | it :: rest, y => (y, it) :: itemLinesFrom rest (y - 15)

/-- `InvoiceGenerator.create_pdf`: one fixed page with text at hardcoded
coordinates; file name `Invoice_{invoice_number}.pdf`. -/
def create_pdf (companyName companyAddress invoiceNumber customerName
    customerAddress invoiceDate : String) (items : List Item) (total : ℚ) : Pdf :=
  { filename := "Invoice_" ++ invoiceNumber ++ ".pdf"
    headerCompanyName := companyName
    headerCompanyAddress := companyAddress
    headerInvoiceNumber := invoiceNumber
    headerDate := invoiceDate
    headerCustomerName := customerName
    headerCustomerAddress := customerAddress
    itemLines := itemLinesFrom items 690
    totalLine := (690 - 15 * (items.length : Int) - 20, total) }

/-- The user's answers to the prompts of one `generate_invoice` cycle. -/
structure CycleInputs where
  invoiceNumberInput : String
  customerName : String
  customerAddress : String
  dateInput : String
  itemInputs : List String
  confirmInput : String
deriving DecidableEq, Repr

/-- How one cycle ended. -/
inductive TermStatus where
  /-- `generate_invoice` returned normally (PDF written or cancelled). -/
  | completed
  /-- An uncaught ValueError on this input terminated the process. -/
  | parseCrash (badInput : String)
  /-- The input script was exhausted; the program is blocked on `input()`. -/
  | blockedForInput
deriving DecidableEq, Repr

/-- Result of one `generate_invoice` cycle: the generator/file state when it
ended, the PDF written (if any), and how it ended. -/
structure CycleOutcome where
  state : GenState
  pdf : Option Pdf
  status : TermStatus
deriving DecidableEq, Repr

/-- `InvoiceGenerator.generate_invoice`, driven by the prompt answers in
`inp`; `today` is the current date string used when the date prompt is left
blank. -/
def generate_invoice (st : GenState) (today : String) (inp : CycleInputs) :
    CycleOutcome :=
  let step1 :=
    if inp.invoiceNumberInput = "" then get_next_invoice_number st
    else (inp.invoiceNumberInput, st)
  let invoiceNumber := step1.1
  let st1 := step1.2
  let invoiceDate := if inp.dateInput = "" then today else inp.dateInput
  match collectItems inp.itemInputs with
  | .crash bad => ⟨st1, none, .parseCrash bad⟩
  | .blocked => ⟨st1, none, .blockedForInput⟩
  | .done items =>
    let total := computeTotal items
    if pyLower (pyStrip inp.confirmInput) = "yes" then
      ⟨st1,
       some (create_pdf st1.company_name st1.company_address invoiceNumber
          inp.customerName inp.customerAddress invoiceDate items total),
       .completed⟩
    else
      ⟨st1, none, .completed⟩

/-- The persisted `last_invoice_number`, read the way the program reads it:
0 when the file or the field is absent. -/
def persistedLastD (st : GenState) : Nat :=
  ((st.file.bind ConfigFile.last_invoice_number).getD 0)

/-- The in-memory counter agrees with the persisted one (holds right after
`__init__` and is preserved by every cycle). -/
def Agrees (st : GenState) : Prop :=
  st.last_invoice_number = persistedLastD st

/-- Concrete stored configuration used by witnesses and counterexamples. -/
def cfStored : ConfigFile :=
  ⟨some "Stored Co", some "Stored Addr", some "ST", some 5⟩

/-- Concrete generator state used by witnesses: in-memory counter 3, file on
disk agreeing with it. -/
def stW : GenState :=
  ⟨"Acme Ltd", "1 Main St", "INV", 3,
   some ⟨some "Acme Ltd", some "1 Main St", some "INV", some 3⟩⟩

/-- Cycle answers: blank invoice number (auto-generate), one `done` to end
item collection, cancel at the confirmation prompt. -/
def inpCancel : CycleInputs :=
  ⟨"", "Cust", "2 Side St", "", ["done"], " No "⟩

/-- Cycle answers: blank invoice number (auto-generate), immediate `done`,
confirm. -/
def inpAuto : CycleInputs :=
  ⟨"", "Cust", "2 Side St", "", ["done"], "yes"⟩

/-- Cycle answers: a verbatim user-supplied invoice number. -/
def inpVerbatim : CycleInputs :=
  ⟨"CUSTOM-7", "Cust", "2 Side St", "2024-06-01", ["done"], "yes"⟩

/-- The state reached by a cycle is the state after the invoice-number
prompt: updated by `get_next_invoice_number` when the answer was blank,
untouched otherwise.  No later step of the cycle writes the state. -/
theorem generate_invoice_state (st : GenState) (today : String) (inp : CycleInputs) :
    (generate_invoice st today inp).state =
      if inp.invoiceNumberInput = "" then (get_next_invoice_number st).2 else st := by
  unfold generate_invoice
  by_cases hb : inp.invoiceNumberInput = "" <;>
    cases hc : collectItems inp.itemInputs <;>
      simp [hc, hb] <;> split <;> rfl

/-- C1: `get_next_invoice_number` increments the in-memory counter by 1,
immediately persists the full four-field configuration, and returns the
prefix concatenated with the new counter value zero-padded to at least 4
digits; `"INV"`/0 gives `"INV0001"` then `"INV0002"`, and with `"A"` the
counter values 7 and 12345 format as `"A0007"` and `"A12345"`. -/
theorem getNext_increments_persists_formats :
    (∀ st : GenState,
      ((get_next_invoice_number st).2).last_invoice_number = st.last_invoice_number + 1
      ∧ ((get_next_invoice_number st).2).file =
          save_config ⟨some st.company_name, some st.company_address, some st.invPfx,
            some (st.last_invoice_number + 1)⟩
      ∧ (get_next_invoice_number st).1 = st.invPfx ++ pad4 (st.last_invoice_number + 1))
    ∧ (get_next_invoice_number ⟨"Default Company", "Default Address", "INV", 0, none⟩).1
        = "INV0001"
    ∧ (get_next_invoice_number
        (get_next_invoice_number
          ⟨"Default Company", "Default Address", "INV", 0, none⟩).2).1 = "INV0002"
    ∧ (get_next_invoice_number ⟨"Co", "Ad", "A", 6, none⟩).1 = "A0007"
    ∧ (get_next_invoice_number ⟨"Co", "Ad", "A", 12344, none⟩).1 = "A12345"
    ∧ "A" ++ pad4 7 = "A0007"
    ∧ "A" ++ pad4 12345 = "A12345" := by
  refine ⟨fun st => ⟨rfl, rfl, rfl⟩, ?_, ?_, ?_, ?_, ?_, ?_⟩ <;> decide

/-- Behaviour of the Python `or` used to resolve each company field at
initialization: a non-empty provided value wins; `None` or `""` falls
through to the second operand. -/
theorem pyOr_spec (a : Option String) (b : String) :
    (∀ s, a = some s → s ≠ "" → pyOr a b = s)
    ∧ ((a = none ∨ a = some "") → pyOr a b = b) := by
  cases a with
  | none =>
    constructor
    · intro s h
      exact absurd h (by simp)
    · intro _
      rfl
  | some t =>
    constructor
    · intro s h hne
      injection h with h
      subst h
      simp [pyOr, hne]
    · rintro (h | h)
      · cases h
      · injection h with h
        subst h
        rfl

/-- C2 counterexample: the explicitly provided override value `""` for the
company name does not win over the stored value (Python `or` treats the
empty string as absent). -/
theorem empty_override_does_not_win :
    (initGenerator (some "") none none (some cfStored)).company_name = "Stored Co"
    ∧ (initGenerator (some "") none none (some cfStored)).company_name ≠ "" := by
  constructor <;> decide

/-- C2 amended: a provided override wins exactly when it is non-empty; an
absent or empty-string override resolves to the stored configuration value
(itself defaulted only when the key is absent). -/
theorem init_resolution_precedence (nameArg addrArg pfxArg : Option String)
    (fs : Option ConfigFile) :
    ((∀ s, nameArg = some s → s ≠ "" →
        (initGenerator nameArg addrArg pfxArg fs).company_name = s)
      ∧ ((nameArg = none ∨ nameArg = some "") →
          (initGenerator nameArg addrArg pfxArg fs).company_name
            = (load_config fs).company_name.getD "Default Company"))
    ∧ ((∀ s, addrArg = some s → s ≠ "" →
        (initGenerator nameArg addrArg pfxArg fs).company_address = s)
      ∧ ((addrArg = none ∨ addrArg = some "") →
          (initGenerator nameArg addrArg pfxArg fs).company_address
            = (load_config fs).company_address.getD "Default Address"))
    ∧ ((∀ s, pfxArg = some s → s ≠ "" →
        (initGenerator nameArg addrArg pfxArg fs).invPfx = s)
      ∧ ((pfxArg = none ∨ pfxArg = some "") →
          (initGenerator nameArg addrArg pfxArg fs).invPfx
            = (load_config fs).invPfx.getD "INV")) :=
  ⟨pyOr_spec nameArg _, pyOr_spec addrArg _, pyOr_spec pfxArg _⟩

/-- Witness for the amended C2: a non-empty name override beats the stored
name, while an empty-string override for the number prefix resolves to the
stored prefix. -/
theorem init_resolution_precedence_witness :
    (initGenerator (some "Arg Co") none (some "") (some cfStored)).company_name = "Arg Co"
    ∧ (initGenerator (some "Arg Co") none (some "") (some cfStored)).invPfx = "ST" := by
  have h := init_resolution_precedence (some "Arg Co") none (some "") (some cfStored)
  exact ⟨h.1.1 "Arg Co" rfl (by decide), (h.2.2.2 (Or.inr rfl)).trans (by decide)⟩

/-- C3: across runs, the persisted `last_invoice_number` is monotonically
non-decreasing.  Initialization writes nothing and establishes agreement of
the in-memory counter with the persisted one; every interactive cycle
preserves that agreement, never decreases the persisted counter, and changes
it only on the auto-generation path, then by exactly 1. -/
theorem persisted_last_monotonic :
    (∀ (nameArg addrArg pfxArg : Option String) (fs : Option ConfigFile),
      (initGenerator nameArg addrArg pfxArg fs).file = fs
      ∧ Agrees (initGenerator nameArg addrArg pfxArg fs))
    ∧ (∀ (st : GenState) (today : String) (inp : CycleInputs), Agrees st →
        Agrees (generate_invoice st today inp).state
        ∧ persistedLastD st ≤ persistedLastD (generate_invoice st today inp).state
        ∧ (persistedLastD (generate_invoice st today inp).state ≠ persistedLastD st →
            inp.invoiceNumberInput = ""
            ∧ persistedLastD (generate_invoice st today inp).state
                = persistedLastD st + 1)) := by
  constructor
  · intro nameArg addrArg pfxArg fs
    refine ⟨rfl, ?_⟩
    cases fs <;> rfl
  · intro st today inp hA
    have hs := generate_invoice_state st today inp
    by_cases hb : inp.invoiceNumberInput = ""
    · rw [hs, if_pos hb]
      have h1 : persistedLastD (get_next_invoice_number st).2
          = st.last_invoice_number + 1 := rfl
      refine ⟨rfl, ?_, fun _ => ⟨hb, ?_⟩⟩
      · rw [h1, ← hA]
        omega
      · rw [h1, ← hA]
    · rw [hs, if_neg hb]
      exact ⟨hA, le_refl _, fun hne => absurd rfl hne⟩

/-- Witness for C3: a concrete agreeing state; one auto-generating cycle
keeps agreement and does not decrease the persisted counter. -/
theorem persisted_last_monotonic_witness :
    Agrees stW
    ∧ persistedLastD stW ≤ persistedLastD (generate_invoice stW "2024-06-01" inpAuto).state
    ∧ Agrees (generate_invoice stW "2024-06-01" inpAuto).state := by
  have hA : Agrees stW := rfl
  have h := persisted_last_monotonic.2 stW "2024-06-01" inpAuto hA
  exact ⟨hA, h.2.1, h.1⟩

/-- C4: saving a full four-field configuration record and loading it back
returns a record with exactly the saved field values. -/
theorem config_save_load_roundtrip (name addr pfx : String) (n : Nat) :
    load_config (save_config ⟨some name, some addr, some pfx, some n⟩)
      = ⟨some name, some addr, some pfx, some n⟩
    ∧ (load_config (save_config ⟨some name, some addr, some pfx, some n⟩)).company_name
        = some name
    ∧ (load_config (save_config ⟨some name, some addr, some pfx, some n⟩)).company_address
        = some addr
    ∧ (load_config (save_config ⟨some name, some addr, some pfx, some n⟩)).invPfx
        = some pfx
    ∧ (load_config (save_config ⟨some name, some addr, some pfx, some n⟩)).last_invoice_number
        = some n :=
  ⟨rfl, rfl, rfl, rfl, rfl⟩

/-- C5: whatever else happens in a cycle, if the stripped, lowered
confirmation answer is not exactly `"yes"`, no PDF is produced; and on the
auto-generation path the configuration file still holds the incremented
counter (no rollback). -/
theorem cancel_no_pdf_no_rollback (st : GenState) (today : String) (inp : CycleInputs)
    (h : pyLower (pyStrip inp.confirmInput) ≠ "yes") :
    (generate_invoice st today inp).pdf = none
    ∧ (inp.invoiceNumberInput = "" →
        (generate_invoice st today inp).state.file =
          save_config ⟨some st.company_name, some st.company_address, some st.invPfx,
            some (st.last_invoice_number + 1)⟩
        ∧ (generate_invoice st today inp).state.last_invoice_number
            = st.last_invoice_number + 1) := by
  constructor
  · unfold generate_invoice
    cases hc : collectItems inp.itemInputs <;> simp [hc, h]
  · intro hb
    rw [generate_invoice_state st today inp, if_pos hb]
    exact ⟨rfl, rfl⟩

/-- Witness for C5: cancelling with `" No "` after auto-generation yields no
PDF while the file keeps the incremented counter. -/
theorem cancel_no_pdf_no_rollback_witness :
    pyLower (pyStrip " No ") ≠ "yes"
    ∧ (generate_invoice stW "2024-06-01" inpCancel).pdf = none
    ∧ (generate_invoice stW "2024-06-01" inpCancel).state.file
        = save_config ⟨some "Acme Ltd", some "1 Main St", some "INV", some 4⟩ := by
  have h := cancel_no_pdf_no_rollback stW "2024-06-01" inpCancel (by decide)
  exact ⟨by decide, h.1, (h.2 rfl).1⟩

/-- Sum of the per-item line totals, in entry order, as folded by the
summary loop. -/
theorem foldl_add_map_sum (f : Item → ℚ) :
    ∀ (l : List Item) (a : ℚ),
      l.foldl (fun t it => t + f it) a = a + (l.map f).sum := by
  intro l
  induction l with
  | nil => intro a; simp
  | cons hd tl ih => intro a; simp [List.foldl_cons, ih, add_assoc]

/-- C6: the computed invoice total is the sum over the items of
`qty * price`, accumulated in entry order; for the items
(qty 2, price 10.0) and (qty 1, price 5.5) it equals 25.5. -/
theorem total_is_sum_of_line_totals :
    (∀ items : List Item,
      computeTotal items = (items.map fun it => (it.qty : ℚ) * it.price).sum)
    ∧ computeTotal [⟨"apples", 2, 10⟩, ⟨"pears", 1, (11 : ℚ)/2⟩] = (51 : ℚ)/2 := by
  constructor
  · intro items
    simpa [computeTotal] using foldl_add_map_sum (fun it => (it.qty : ℚ) * it.price) items 0
  · with_unfolding_all decide

/-- C7: with no configuration file and no overrides, loading returns the
empty mapping and initialization resolves every field to its built-in
default (company `"Default Company"`, address `"Default Address"`, number
prefix `"INV"`, counter 0). -/
theorem fresh_load_defaults :
    load_config none = ⟨none, none, none, none⟩
    ∧ initGenerator none none none none
        = ⟨"Default Company", "Default Address", "INV", 0, none⟩
    ∧ (initGenerator none none none none).company_name = "Default Company"
    ∧ (initGenerator none none none none).company_address = "Default Address"
    ∧ (initGenerator none none none none).invPfx = "INV"
    ∧ (initGenerator none none none none).last_invoice_number = 0 :=
  ⟨rfl, rfl, rfl, rfl, rfl, rfl⟩

/-- C9: a cycle whose invoice-number answer is non-empty (in particular any
non-blank one) leaves the whole generator state untouched: no configuration
write, in-memory and persisted counters unchanged. -/
theorem verbatim_number_no_config_write (st : GenState) (today : String)
    (inp : CycleInputs) (h : inp.invoiceNumberInput ≠ "") :
    (generate_invoice st today inp).state = st
    ∧ (generate_invoice st today inp).state.file = st.file
    ∧ (generate_invoice st today inp).state.last_invoice_number
        = st.last_invoice_number := by
  have hs := generate_invoice_state st today inp
  rw [if_neg h] at hs
  exact ⟨hs, by rw [hs], by rw [hs]⟩

/-- Witness for C9: supplying the number `"CUSTOM-7"` leaves the state
unchanged. -/
theorem verbatim_number_no_config_write_witness :
    CycleInputs.invoiceNumberInput inpVerbatim ≠ ""
    ∧ (generate_invoice stW "2024-06-01" inpVerbatim).state = stW := by
  have h := verbatim_number_no_config_write stW "2024-06-01" inpVerbatim (by decide)
  exact ⟨by decide, h.1⟩

/-- Loop step: a description lowering to `done` ends collection at once. -/
theorem collectItems_done (d : String) (rest : List String)
    (h : pyLower d = "done") :
    collectItems (d :: rest) = CollectResult.done [] := by
  rw [collectItems.eq_def]
  simp [h]

/-- Loop step: a non-numeric quantity answer crashes the process. -/
theorem collectItems_crash_qty (d q : String) (rest : List String)
    (h : pyLower d ≠ "done") (hq : pyParseInt q = none) :
    collectItems (d :: q :: rest) = CollectResult.crash q := by
  rw [collectItems.eq_def]
  simp [h, hq]

/-- Loop step: a non-numeric price answer crashes the process. -/
theorem collectItems_crash_price (d q p : String) (rest : List String) (n : Int)
    (h : pyLower d ≠ "done") (hq : pyParseInt q = some n)
    (hp : pyParseFloat p = none) :
    collectItems (d :: q :: p :: rest) = CollectResult.crash p := by
  rw [collectItems.eq_def]
  simp [h, hq, hp]

/-- Loop step: a fully parsed item is appended in front of the items
collected by the remaining iterations. -/
theorem collectItems_cons (d q p : String) (rest : List String) (n : Int)
    (v : ℚ) (items : List Item) (h : pyLower d ≠ "done")
    (hq : pyParseInt q = some n) (hp : pyParseFloat p = some v)
    (hrest : collectItems rest = CollectResult.done items) :
    collectItems (d :: q :: p :: rest)
      = CollectResult.done (⟨d, n, v⟩ :: items) := by
  rw [collectItems.eq_def]
  simp [h, hq, hp, hrest]

/-- Loop step: when the remaining iterations crash or block, so does the
whole loop after a fully parsed item. -/
theorem collectItems_stuck (d q p : String) (rest : List String) (n : Int)
    (v : ℚ) (h : pyLower d ≠ "done") (hq : pyParseInt q = some n)
    (hp : pyParseFloat p = some v)
    (hn : ∀ items, collectItems rest ≠ CollectResult.done items) :
    collectItems (d :: q :: p :: rest) = collectItems rest := by
  rw [collectItems.eq_def (d :: q :: p :: rest)]
  cases hcr : collectItems rest with
  | done xs => exact absurd hcr (hn xs)
  | crash b => simp [h, hq, hp, hcr]
  | blocked => simp [h, hq, hp, hcr]

/-- C8: in the item loop, a description lowering to `done` ends collection;
otherwise the quantity is parsed as an integer and the price as a float, a
parse failure on either crashes the cycle (no PDF), and successfully parsed
items accumulate in entry order. -/
theorem item_collection_parse_behavior :
    (∀ (d : String) (rest : List String), pyLower d = "done" →
        collectItems (d :: rest) = CollectResult.done [])
    ∧ (∀ (d q : String) (rest : List String), pyLower d ≠ "done" →
        pyParseInt q = none →
        collectItems (d :: q :: rest) = CollectResult.crash q)
    ∧ (∀ (d q p : String) (rest : List String) (n : Int), pyLower d ≠ "done" →
        pyParseInt q = some n → pyParseFloat p = none →
        collectItems (d :: q :: p :: rest) = CollectResult.crash p)
    ∧ (∀ (d q p : String) (rest : List String) (n : Int) (v : ℚ)
        (items : List Item), pyLower d ≠ "done" →
        pyParseInt q = some n → pyParseFloat p = some v →
        collectItems rest = CollectResult.done items →
        collectItems (d :: q :: p :: rest)
          = CollectResult.done (⟨d, n, v⟩ :: items))
    ∧ (∀ (st : GenState) (today : String) (inp : CycleInputs) (bad : String),
        collectItems inp.itemInputs = CollectResult.crash bad →
        (generate_invoice st today inp).status = TermStatus.parseCrash bad
        ∧ (generate_invoice st today inp).pdf = none) := by
  refine ⟨?_, ?_, ?_, ?_, ?_⟩
  · intro d rest h
    exact collectItems_done d rest h
  · intro d q rest h hq
    exact collectItems_crash_qty d q rest h hq
  · intro d q p rest n h hq hp
    exact collectItems_crash_price d q p rest n h hq hp
  · intro d q p rest n v items h hq hp hrest
    exact collectItems_cons d q p rest n v items h hq hp hrest
  · intro st today inp bad hc
    unfold generate_invoice
    simp [hc]

/-- Witness for C8: concrete runs of the item loop through each branch. -/
theorem item_collection_parse_behavior_witness :
    collectItems ["DoNe"] = CollectResult.done []
    ∧ collectItems ["apple", "two"] = CollectResult.crash "two"
    ∧ collectItems ["apple", "2", "cheap"] = CollectResult.crash "cheap"
    ∧ collectItems ["apple", "2", "10.0", "done"]
        = CollectResult.done [⟨"apple", 2, 10⟩] := by
  have h := item_collection_parse_behavior
  refine ⟨h.1 "DoNe" [] (by decide),
    h.2.1 "apple" "two" [] (by decide) (by decide),
    h.2.2.1 "apple" "2" "cheap" [] 2 (by decide) (by decide) ?_,
    h.2.2.2.1 "apple" "2" "10.0" ["done"] 2 10 [] (by decide) (by decide) ?_
      (h.1 "done" [] (by decide))⟩
  · with_unfolding_all decide
  · with_unfolding_all decide

/-- Every item drawn on the PDF page comes from the collected list. -/
theorem itemLinesFrom_snd_mem : ∀ (items : List Item) (y : Int) (pr : Int × Item),
    pr ∈ itemLinesFrom items y → pr.2 ∈ items := by
  intro items
  induction items with
  | nil =>
    intro y pr h
    simp [itemLinesFrom] at h
  | cons hd tl ih =>
    intro y pr h
    simp only [itemLinesFrom, List.mem_cons] at h
    rcases h with h | h
    · subst h
      simp
    · exact List.mem_cons_of_mem _ (ih _ _ h)

/-- C10: no item returned by the collection loop (and hence none drawn on a
produced PDF) has a description lowering to `done`, while a description with
surrounding whitespace such as `" done "` does become an item. -/
theorem no_done_item_collected :
    (∀ (inputs : List String) (items : List Item),
        collectItems inputs = CollectResult.done items →
        ∀ it ∈ items, pyLower it.desc ≠ "done")
    ∧ (∀ (st : GenState) (today : String) (inp : CycleInputs) (doc : Pdf),
        (generate_invoice st today inp).pdf = some doc →
        ∀ pr ∈ doc.itemLines, pyLower (Item.desc pr.2) ≠ "done")
    ∧ collectItems [" done ", "1", "2.5", "done"]
        = CollectResult.done [⟨" done ", 1, (5 : ℚ)/2⟩] := by
  have main : ∀ (inputs : List String) (items : List Item),
      collectItems inputs = CollectResult.done items →
      ∀ it ∈ items, pyLower it.desc ≠ "done" := by
    intro inputs
    induction inputs using collectItems.induct with
    | case1 =>
      intro items h
      simp [collectItems] at h
    | case2 d rest hdone =>
      intro items h
      rw [collectItems_done d rest hdone] at h
      injection h with h2
      subst h2
      intro it hit
      simp at hit
    | case3 d hd =>
      intro items h
      rw [collectItems.eq_def] at h
      simp [hd] at h
    | case4 d hd q rest hq =>
      intro items h
      rw [collectItems_crash_qty d q rest hd hq] at h
      exact CollectResult.noConfusion h
    | case5 d hd q n hq =>
      intro items h
      rw [collectItems.eq_def] at h
      simp [hd, hq] at h
    | case6 d hd q n hq p rest hp =>
      intro items h
      rw [collectItems_crash_price d q p rest n hd hq hp] at h
      exact CollectResult.noConfusion h
    | case7 d hd q n hq p rest v hp items2 hrest ih =>
      intro items h
      rw [collectItems_cons d q p rest n v items2 hd hq hp hrest] at h
      injection h with h2
      subst h2
      intro it hit
      rcases List.mem_cons.mp hit with h3 | h3
      · subst h3
        exact hd
      · exact ih items2 hrest it h3
    | case8 d hd q n hq p rest v hp hnone ih =>
      intro items h
      rw [collectItems_stuck d q p rest n v hd hq hp
        (fun xs hxs => hnone xs hxs)] at h
      exact absurd h (hnone items)
  refine ⟨main, ?_, by with_unfolding_all decide⟩
  intro st today inp doc hp pr hmem
  unfold generate_invoice at hp
  cases hc : collectItems inp.itemInputs with
  | crash b => simp [hc] at hp
  | blocked => simp [hc] at hp
  | done items =>
    simp only [hc] at hp
    split at hp
    · injection hp with hp2
      subst hp2
      simp only [create_pdf] at hmem
      exact main inp.itemInputs items hc pr.2 (itemLinesFrom_snd_mem items 690 pr hmem)
    · exact absurd hp (by simp)

/-- Witness for C10: the item collected from description `"apple"` does not
lower to `done`. -/
theorem no_done_item_collected_witness :
    pyLower (Item.desc ⟨"apple", 2, 10⟩) ≠ "done" := by
  exact no_done_item_collected.1 ["apple", "2", "10.0", "done"] [⟨"apple", 2, 10⟩]
    (by with_unfolding_all decide) ⟨"apple", 2, 10⟩ (by simp)
